import Mathlib

/-!
Shallow embedding of the SkyCallPro / SkyMessage signaling server.

The repository contains three variants of the same single-file server:
`src/server.js` (in-memory users/messages), `src/unnamed/part_001`
(in-memory, semantically identical handlers), and `src/unnamed/part_000`
(SQLite-backed).  The `SkyCall` namespace embeds the in-memory variant
(`src/server.js`); the `SkyCall.Sql` namespace embeds the SQLite variant
(`src/unnamed/part_000`).

Modelling conventions:
* A JS object used as a map (`users`, `socketToUser`, `userSockets`) is an
  insertion-ordered association list with unique keys; assignment to an
  existing key updates in place, assignment to a fresh key appends.
* Socket.IO connection handles (`socket.id`) are `Nat`.
* `Date.now()` is an external input: handlers that read the clock take the
  current clock value `ts` as an argument.
* Each handler returns the updated server state together with the list of
  Socket.IO emissions it performs (`Emit`); `io.emit` broadcasts are the
  `Emit.usersUpdated` constructor, `io.to(sid).emit` / `socket.emit` are the
  target-carrying constructors.  Handlers invoked with an acknowledgment
  callback additionally return the `Cb` value passed to `cb`.
* The SQLite `INSERT` outcome for `chat-message` is an external input
  (`dbOk : Bool`), since the archive is an external collaborator.
-/

namespace SkyCall

/-- JS object lookup `o[k]`: first (and only) binding for key `k`. -/
def objGet [DecidableEq κ] (k : κ) : List (κ × α) → Option α
  | [] => none
  | (k2, v) :: rest => if k = k2 then some v else objGet k rest

/-- JS object assignment `o[k] = v`: update in place, or append a fresh key. -/
def objSet [DecidableEq κ] (k : κ) (v : α) : List (κ × α) → List (κ × α)
  | [] => [(k, v)]
  | (k2, v2) :: rest => if k = k2 then (k, v) :: rest else (k2, v2) :: objSet k v rest

/-- JS `delete o[k]`: remove the binding for key `k`. -/
def objDel [DecidableEq κ] (k : κ) : List (κ × α) → List (κ × α)
  | [] => []
  | (k2, v2) :: rest => if k = k2 then rest else (k2, v2) :: objDel k rest

/-- Helper for substring search: `hasPfx a b` iff `a` starts list `b`. -/
def hasPfx : List Char → List Char → Bool
  | [], _ => true
  | _ :: _, [] => false
  | a :: as, b :: bs => a == b && hasPfx as bs

/-- Helper for substring search: `hasSub sub l` iff `sub` occurs contiguously in `l`. -/
def hasSub (sub : List Char) : List Char → Bool
  | [] => hasPfx sub []
  | c :: cs => hasPfx sub (c :: cs) || hasSub sub cs

/-- JS `s.toLowerCase()` (modelled character-wise). -/
def lowerStr (s : String) : String := String.mk (s.toList.map Char.toLower)

/-- JS `s.includes(q)`: `q` occurs as a contiguous substring of `s`. -/
def jsIncludes (s q : String) : Bool := hasSub q.toList s.toList

/-- Acknowledgment value passed to a Socket.IO callback:
`cb({ok:true})` or `cb({ok:false, error})`. -/
inductive Cb where
  | ok : Cb
  | err : String → Cb
deriving DecidableEq

/-- One entry of `users` in `src/server.js`:
`{ password, displayName, socketId: string|null }`. -/
structure UserRec where
  password : String
  displayName : String
  socketId : Option Nat
deriving DecidableEq

/-- One entry of the `messages` array in `src/server.js`:
`{ from, to, text, ts }` (field `from` renamed, as in the SQL aliases
`fromUser`/`toUser` of `src/unnamed/part_000`). -/
structure Msg where
  fromUser : String
  toUser : String
  text : String
  ts : Nat
deriving DecidableEq

/-- One element of the list returned by `listUsers`:
`{ username, displayName, online }`. -/
structure RosterEntry where
  username : String
  displayName : String
  online : Bool
deriving DecidableEq

/-- One Socket.IO emission performed by a handler.  `usersUpdated` is the
`io.emit('users-updated', roster)` broadcast to every live connection; the
other constructors carry the target socket id of an `io.to(sid).emit` or
`socket.emit`. -/
inductive Emit where
  | usersUpdated : List RosterEntry → Emit
  | incomingCall : Nat → String → Option String → Emit
  | offerEv : Nat → String → String → Emit
  | answerEv : Nat → String → String → Emit
  | iceEv : Nat → String → String → Emit
  | endCallEv : Nat → String → Emit
  | chatMessageEv : Nat → String → String → Nat → Emit
  | chatAckedEv : Nat → String → String → Nat → Emit
deriving DecidableEq

/-- Mutable state of `src/server.js`: the `users` object, the `messages`
array, and the reverse map `socketToUser`. -/
structure ServerState where
  users : List (String × UserRec)
  messages : List Msg
  socketToUser : List (Nat × String)
deriving DecidableEq

/-- Function `listUsers(q)` of `src/server.js` (lines 24-29): filter
usernames by case-insensitive substring match (username only), and project
to `{ username, displayName: users[u].displayName || u, online: !!socketId }`.
Keys of a JS object are its entries in insertion order, so the
`Object.keys(users)` traversal is the traversal of the association list. -/
def listUsers (q : String) (users : List (String × UserRec)) : List RosterEntry :=
  (users.filter fun p => jsIncludes (lowerStr p.1) (lowerStr q)).map fun p =>
    { username := p.1
      displayName := if p.2.displayName = "" then p.1 else p.2.displayName
      online := p.2.socketId.isSome }

/-- Session-registry lookup `users[a].socketId` (spec operation
`lookup(identity)`). -/
def lookup (a : String) (st : ServerState) : Option Nat :=
  match objGet a st.users with
  | some u => u.socketId
  | none => none

/-- Reverse lookup `socketToUser[socket.id]` (spec operation
`identityOf(connection)`). -/
def identityOf (sid : Nat) (st : ServerState) : Option String :=
  objGet sid st.socketToUser

/-- Handler `socket.on('socket-login')` of `src/server.js` (lines 98-106):
if the username is registered, bind it to this socket (both directions) and
broadcast the updated roster; otherwise do nothing. -/
def socketLogin (sid : Nat) (username : String) (st : ServerState) :
    ServerState × List Emit :=
  match objGet username st.users with
  | some u =>
    let st2 : ServerState :=
      { st with
        users := objSet username { u with socketId := some sid } st.users
        socketToUser := objSet sid username st.socketToUser }
    (st2, [Emit.usersUpdated (listUsers "" st2.users)])
  | none => (st, [])

/-- Handler `socket.on('call')` of `src/server.js` (lines 125-133): resolve
the sender, fail `not logged in` if unbound; resolve the target, fail
`user offline` if unknown or unbound; otherwise emit one `incoming-call`
event `{ from, displayName: users[from].displayName }` to the target socket
and acknowledge `ok`. -/
def callH (sid : Nat) (toUser : String) (st : ServerState) :
    ServerState × List Emit × Cb :=
  match objGet sid st.socketToUser with
  | none => (st, [], Cb.err "not logged in")
  | some fromUser =>
    match objGet toUser st.users with
    | none => (st, [], Cb.err "user offline")
    | some target =>
      match target.socketId with
      | none => (st, [], Cb.err "user offline")
      | some tsid =>
        (st, [Emit.incomingCall tsid fromUser
          ((objGet fromUser st.users).map UserRec.displayName)], Cb.ok)

/-- Handler `socket.on('offer')` of `src/server.js` (lines 136-143): silent
drop when the sender is unbound or the target is unknown/offline; otherwise
forward `{ from, sdp }`.  No callback exists for this event. -/
def offerH (sid : Nat) (toUser sdp : String) (st : ServerState) :
    ServerState × List Emit :=
  match objGet sid st.socketToUser with
  | none => (st, [])
  | some fromUser =>
    match objGet toUser st.users with
    | some target =>
      match target.socketId with
      | some tsid => (st, [Emit.offerEv tsid fromUser sdp])
      | none => (st, [])
    | none => (st, [])

/-- Handler `socket.on('answer')` of `src/server.js` (lines 146-153), same
shape as `offerH`. -/
def answerH (sid : Nat) (toUser sdp : String) (st : ServerState) :
    ServerState × List Emit :=
  match objGet sid st.socketToUser with
  | none => (st, [])
  | some fromUser =>
    match objGet toUser st.users with
    | some target =>
      match target.socketId with
      | some tsid => (st, [Emit.answerEv tsid fromUser sdp])
      | none => (st, [])
    | none => (st, [])

/-- Handler `socket.on('ice-candidate')` of `src/server.js` (lines 156-163),
same shape as `offerH`. -/
def iceH (sid : Nat) (toUser candidate : String) (st : ServerState) :
    ServerState × List Emit :=
  match objGet sid st.socketToUser with
  | none => (st, [])
  | some fromUser =>
    match objGet toUser st.users with
    | some target =>
      match target.socketId with
      | some tsid => (st, [Emit.iceEv tsid fromUser candidate])
      | none => (st, [])
    | none => (st, [])

/-- Handler `socket.on('end-call')` of `src/server.js` (lines 166-173), same
shape as `offerH`. -/
def endCallH (sid : Nat) (toUser : String) (st : ServerState) :
    ServerState × List Emit :=
  match objGet sid st.socketToUser with
  | none => (st, [])
  | some fromUser =>
    match objGet toUser st.users with
    | some target =>
      match target.socketId with
      | some tsid => (st, [Emit.endCallEv tsid fromUser])
      | none => (st, [])
    | none => (st, [])

/-- Handler `socket.on('chat-message')` of `src/server.js` (lines 176-189):
fail `not logged in` for an unbound sender; otherwise push
`{ from, to, text, ts }` onto `messages` (with `ts = Date.now()`, passed in
as the clock value), forward a live `chat-message` to the target socket if
the target is online, emit `chat-acked` back to the sender's own socket, and
acknowledge `ok`.  There is no check on `text`. -/
def chatMessage (sid : Nat) (toUser text : String) (ts : Nat)
    (st : ServerState) : ServerState × List Emit × Cb :=
  match objGet sid st.socketToUser with
  | none => (st, [], Cb.err "not logged in")
  | some fromUser =>
    let st2 : ServerState :=
      { st with messages := st.messages ++ [⟨fromUser, toUser, text, ts⟩] }
    let deliver : List Emit :=
      match objGet toUser st.users with
      | some target =>
        match target.socketId with
        | some tsid => [Emit.chatMessageEv tsid fromUser text ts]
        | none => []
      | none => []
    (st2, deliver ++ [Emit.chatAckedEv sid toUser text ts], Cb.ok)

/-- Handler `socket.on('disconnect')` of `src/server.js` (lines 191-201): if
the socket has an entry in the reverse map and that username is registered,
set the username's `socketId` to `null` unconditionally, delete the reverse
entry, and broadcast the roster; otherwise do nothing. -/
def disconnectH (sid : Nat) (st : ServerState) : ServerState × List Emit :=
  match objGet sid st.socketToUser with
  | some u =>
    match objGet u st.users with
    | some urec =>
      let st2 : ServerState :=
        { st with
          users := objSet u { urec with socketId := none } st.users
          socketToUser := objDel sid st.socketToUser }
      (st2, [Emit.usersUpdated (listUsers "" st2.users)])
    | none => (st, [])
  | none => (st, [])

/-- JS `arr.slice(-n)`: the last `n` elements. -/
def sliceLast (n : Nat) (l : List α) : List α := l.drop (l.length - n)

/-- Route `GET /api/messages` of `src/server.js` (lines 69-76): the history
between `a` and `b` is the messages in either direction, last 200. -/
def history (a b : String) (msgs : List Msg) : List Msg :=
  sliceLast 200 (msgs.filter fun m =>
    (m.fromUser == a && m.toUser == b) || (m.fromUser == b && m.toUser == a))

namespace Sql

/-- One row of the SQLite `users` table of `src/unnamed/part_000`
(`created_at` omitted: it is never read by the embedded logic). -/
structure UserRow where
  username : String
  password : String
  displayName : String
deriving DecidableEq

/-- One row of the SQLite `messages` table of `src/unnamed/part_000`:
`id INTEGER PRIMARY KEY AUTOINCREMENT, from_user, to_user, text, ts`. -/
structure MsgRow where
  id : Nat
  fromUser : String
  toUser : String
  text : String
  ts : Nat
deriving DecidableEq

/-- State of `src/unnamed/part_000`: the two SQLite tables (with the
AUTOINCREMENT counter `seqMsg` for `messages.id`) and the two in-memory
runtime maps `socketToUser` and `userSockets`. -/
structure SqlState where
  dbUsers : List UserRow
  dbMessages : List MsgRow
  seqMsg : Nat
  socketToUser : List (Nat × String)
  userSockets : List (String × Nat)
deriving DecidableEq

/-- SQLite `col LIKE '%' || q || '%'` for literal `q`: case-insensitive
(ASCII folding, modelled via `Char.toLower`) containment.  LIKE
metacharacters occurring inside `q` itself are not modelled. -/
def likeContains (q s : String) : Bool :=
  hasSub (lowerStr q).toList (lowerStr s).toList

/-- WHERE clause of `listUsersSql` in `src/unnamed/part_000` (line 68):
`username LIKE ? OR displayName LIKE ?`. -/
def rowMatches (q : String) (r : UserRow) : Bool :=
  likeContains q r.username || likeContains q r.displayName

/-- Stable insertion of a row into a list sorted by `username` ascending. -/
def ordInsert (a : UserRow) : List UserRow → List UserRow
  | [] => [a]
  | b :: l => if a.username ≤ b.username then a :: b :: l else b :: ordInsert a l

/-- `ORDER BY username` (SQLite default BINARY collation ascending, which on
our `String` model is the lexicographic order), as a stable insertion sort. -/
def sortByUsername : List UserRow → List UserRow
  | [] => []
  | a :: l => ordInsert a (sortByUsername l)

/-- Rows are ordered by username, ascending. -/
def RowLe (a b : UserRow) : Prop := a.username ≤ b.username

/-- Function `listUsersSql(q)` of `src/unnamed/part_000` (lines 64-81):
`SELECT username, displayName FROM users WHERE username LIKE ? OR
displayName LIKE ? ORDER BY username LIMIT 200`, then map each row to
`{ username, displayName: displayName || username, online: !!userSockets[username] }`. -/
def listUsersSql (q : String) (st : SqlState) : List RosterEntry :=
  (((sortByUsername (st.dbUsers.filter (rowMatches q))).take 200).map fun r =>
    { username := r.username
      displayName := if r.displayName = "" then r.username else r.displayName
      online := (objGet r.username st.userSockets).isSome })

/-- Handler `socket.on('socket-login')` of `src/unnamed/part_000`
(lines 180-186): for any truthy (non-empty) username, bind it in both
runtime maps without consulting the `users` table, and broadcast the
unfiltered roster (`broadcastUsersUpdated`, lines 167-174). -/
def socketLoginSql (sid : Nat) (username : String) (st : SqlState) :
    SqlState × List Emit :=
  if username = "" then (st, [])
  else
    let st2 : SqlState :=
      { st with
        socketToUser := objSet sid username st.socketToUser
        userSockets := objSet username sid st.userSockets }
    (st2, [Emit.usersUpdated (listUsersSql "" st2)])

/-- Handler `socket.on('call')` of `src/unnamed/part_000` (lines 216-223):
resolve sender and target, then emit `incoming-call` with
`{ from, displayName: null }` to the target socket. -/
def callSql (sid : Nat) (toUser : String) (st : SqlState) :
    SqlState × List Emit × Cb :=
  match objGet sid st.socketToUser with
  | none => (st, [], Cb.err "not logged in")
  | some fromUser =>
    match objGet toUser st.userSockets with
    | none => (st, [], Cb.err "user offline")
    | some tsid => (st, [Emit.incomingCall tsid fromUser none], Cb.ok)

/-- Handler `socket.on('chat-message')` of `src/unnamed/part_000`
(lines 262-278): fail `not logged in` for an unbound sender; otherwise run
`INSERT INTO messages ...`.  The insert outcome is the external input
`dbOk`: on failure the callback receives `db error` and nothing else
happens; on success the row is appended with the next AUTOINCREMENT id and
the clock value `ts`, the message is forwarded live if the target is bound,
`chat-acked` goes back to the sender, and the callback receives `ok`. -/
def chatMessageSql (dbOk : Bool) (sid : Nat) (toUser text : String) (ts : Nat)
    (st : SqlState) : SqlState × List Emit × Cb :=
  match objGet sid st.socketToUser with
  | none => (st, [], Cb.err "not logged in")
  | some fromUser =>
    if dbOk then
      let st2 : SqlState :=
        { st with
          dbMessages := st.dbMessages ++ [⟨st.seqMsg, fromUser, toUser, text, ts⟩]
          seqMsg := st.seqMsg + 1 }
      let deliver : List Emit :=
        match objGet toUser st.userSockets with
        | some tsid => [Emit.chatMessageEv tsid fromUser text ts]
        | none => []
      (st2, deliver ++ [Emit.chatAckedEv sid toUser text ts], Cb.ok)
    else (st, [], Cb.err "db error")

end Sql

/-! ## Helper lemmas -/

theorem objGet_objSet_self [DecidableEq κ] (k : κ) (v : α) (l : List (κ × α)) :
    objGet k (objSet k v l) = some v := by
  induction l with
  | nil => simp [objGet, objSet]
  | cons p rest ih =>
    by_cases h : k = p.1
    · simp [objGet, objSet, h]
    · simp [objGet, objSet, h, ih]

theorem objGet_objSet_ne [DecidableEq κ] {k k2 : κ} (h : k ≠ k2) (v : α)
    (l : List (κ × α)) : objGet k (objSet k2 v l) = objGet k l := by
  induction l with
  | nil => simp [objGet, objSet, h]
  | cons p rest ih =>
    by_cases h2 : k2 = p.1
    · subst h2
      simp [objGet, objSet, h]
    · by_cases h3 : k = p.1 <;> simp [objGet, objSet, h2, h3, ih]

theorem mem_ordInsert (x a : Sql.UserRow) (l : List Sql.UserRow) :
    x ∈ Sql.ordInsert a l ↔ x = a ∨ x ∈ l := by
  induction l with
  | nil => simp [Sql.ordInsert]
  | cons b t ih =>
    by_cases h : a.username ≤ b.username
    · simp [Sql.ordInsert, h]
    · simp [Sql.ordInsert, h, ih]
      tauto

theorem mem_sortByUsername (x : Sql.UserRow) (l : List Sql.UserRow) :
    x ∈ Sql.sortByUsername l ↔ x ∈ l := by
  induction l with
  | nil => simp [Sql.sortByUsername]
  | cons a t ih => simp [Sql.sortByUsername, mem_ordInsert, ih]

theorem length_ordInsert (a : Sql.UserRow) (l : List Sql.UserRow) :
    (Sql.ordInsert a l).length = l.length + 1 := by
  induction l with
  | nil => simp [Sql.ordInsert]
  | cons b t ih =>
    by_cases h : a.username ≤ b.username
    · simp [Sql.ordInsert, h]
    · simp [Sql.ordInsert, h, ih]

theorem length_sortByUsername (l : List Sql.UserRow) :
    (Sql.sortByUsername l).length = l.length := by
  induction l with
  | nil => rfl
  | cons a t ih => simp [Sql.sortByUsername, length_ordInsert, ih]

theorem sorted_ordInsert (a : Sql.UserRow) (l : List Sql.UserRow)
    (h : List.Pairwise Sql.RowLe l) :
    List.Pairwise Sql.RowLe (Sql.ordInsert a l) := by
  induction l with
  | nil => simp [Sql.ordInsert]
  | cons b t ih =>
    by_cases hab : a.username ≤ b.username
    · rw [Sql.ordInsert, if_pos hab]
      refine List.Pairwise.cons ?_ h
      intro y hy
      rcases List.mem_cons.mp hy with rfl | hyt
      · exact hab
      · exact le_trans hab ((List.pairwise_cons.mp h).1 y hyt)
    · rw [Sql.ordInsert, if_neg hab]
      rcases List.pairwise_cons.mp h with ⟨hb, ht⟩
      refine List.Pairwise.cons ?_ (ih ht)
      intro y hy
      rcases (mem_ordInsert y a t).mp hy with rfl | hyt
      · exact le_of_not_le hab
      · exact hb y hyt

theorem sorted_sortByUsername (l : List Sql.UserRow) :
    List.Pairwise Sql.RowLe (Sql.sortByUsername l) := by
  induction l with
  | nil => exact List.Pairwise.nil
  | cons a t ih => exact sorted_ordInsert a (Sql.sortByUsername t) ih

theorem mem_sliceLast_append (n : Nat) (hn : 0 < n) (l : List α) (x : α) :
    x ∈ sliceLast n (l ++ [x]) := by
  unfold sliceLast
  have hk : (l ++ [x]).length - n ≤ l.length := by
    simp only [List.length_append, List.length_singleton]
    omega
  rw [List.drop_append_of_le_length hk]
  exact List.mem_append_right _ (List.mem_singleton.mpr rfl)

/-! ## C1: last-login-wins and the (missing) stale-unbind guard -/

/-- C1, counterexample.  Concrete run on `src/server.js`: identity `"A"` is
registered; socket `1` logs in as `"A"`, then socket `2` logs in as `"A"`
(so `lookup "A"` is socket `2`); socket `1` then disconnects.  The claim
says this stale unbind is a no-op leaving socket `2` bound, but the
`disconnect` handler clears `users["A"].socketId` unconditionally, so
`lookup "A"` returns absent, not socket `2`. -/
theorem stale_unbind_removes_current_binding_cex :
    lookup "A" ((socketLogin 2 "A" ((socketLogin 1 "A"
        (⟨[("A", ⟨"pw", "A", none⟩)], [], []⟩ : ServerState)).1)).1) = some 2 ∧
    lookup "A" ((disconnectH 1 ((socketLogin 2 "A" ((socketLogin 1 "A"
        (⟨[("A", ⟨"pw", "A", none⟩)], [], []⟩ : ServerState)).1)).1)).1) = none ∧
    (none : Option Nat) ≠ some 2 :=
  ⟨by decide, by decide, by decide⟩

/-- C1, amended.  For every state with registered identity `A` and distinct
connections `connA ≠ connB`: after `bind(connA, A)` then `bind(connB, A)`,
`lookup A` returns `connB` (last-login-wins holds); but a subsequent
`unbind(connA)` is not a no-op — the `disconnect` handler checks only that
`connA` still occurs in the reverse map `socketToUser` and then clears
identity `A`'s `socketId` unconditionally, so it removes `connB`'s binding
and `lookup A` returns absent. -/
theorem lastLoginWins_staleUnbind_clears (st : ServerState) (A : String)
    (u : UserRec) (connA connB : Nat) (hu : objGet A st.users = some u)
    (hne : connA ≠ connB) :
    lookup A ((socketLogin connB A ((socketLogin connA A st).1)).1) = some connB ∧
    lookup A ((disconnectH connA
      ((socketLogin connB A ((socketLogin connA A st).1)).1)).1) = none := by
  simp [socketLogin, disconnectH, lookup, hu, objGet_objSet_self,
    objGet_objSet_ne hne]

/-- C1, witness for `lastLoginWins_staleUnbind_clears` at a concrete
state. -/
theorem lastLoginWins_staleUnbind_clears_witness :
    lookup "B" ((socketLogin 4 "B" ((socketLogin 3 "B"
      (⟨[("B", ⟨"pw", "B", none⟩)], [], []⟩ : ServerState)).1)).1) = some 4 ∧
    lookup "B" ((disconnectH 3 ((socketLogin 4 "B" ((socketLogin 3 "B"
      (⟨[("B", ⟨"pw", "B", none⟩)], [], []⟩ : ServerState)).1)).1)).1) = none :=
  lastLoginWins_staleUnbind_clears ⟨[("B", ⟨"pw", "B", none⟩)], [], []⟩ "B"
    ⟨"pw", "B", none⟩ 3 4 (by decide) (by decide)

/-! ## C2: socket-login with an unregistered username -/

/-- C2, counterexample.  In the SQLite variant (`src/unnamed/part_000`,
`socket-login`, lines 180-186) the handler never consults the `users`
table: with an empty user table (so `"mallory"` is not registered), the
login announcement still creates both registry bindings and emits a
roster broadcast, contradicting the claim that the registry is left
unchanged with no broadcast. -/
theorem sql_login_unregistered_binds_cex :
    (Sql.socketLoginSql 1 "mallory"
      (⟨[], [], 0, [], []⟩ : Sql.SqlState)).1.socketToUser = [(1, "mallory")] ∧
    (Sql.socketLoginSql 1 "mallory"
      (⟨[], [], 0, [], []⟩ : Sql.SqlState)).1.userSockets = [("mallory", 1)] ∧
    (Sql.socketLoginSql 1 "mallory"
      (⟨[], [], 0, [], []⟩ : Sql.SqlState)).2 = [Emit.usersUpdated []] ∧
    [Emit.usersUpdated []] ≠ ([] : List Emit) :=
  ⟨by decide, by decide, by decide, by decide⟩

/-- C2, amended.  In the in-memory variants (`src/server.js` lines 98-106,
and the identical handler of `src/unnamed/part_001`), a socket-login
announcement for an unregistered username leaves the whole state unchanged
and emits nothing (so no binding is created, `identityOf` is unchanged, and
no roster broadcast fires); in the SQLite variant (`src/unnamed/part_000`)
the handler binds any non-empty username without consulting the user table
and does broadcast. -/
theorem socketLogin_unregistered_noop (st : ServerState) (sid : Nat)
    (username : String) (h : objGet username st.users = none) :
    socketLogin sid username st = (st, []) ∧
    identityOf sid (socketLogin sid username st).1 = identityOf sid st := by
  have h1 : socketLogin sid username st = (st, []) := by simp [socketLogin, h]
  exact ⟨h1, by rw [h1]⟩

/-- C2, witness for `socketLogin_unregistered_noop` at a concrete state. -/
theorem socketLogin_unregistered_noop_witness :
    socketLogin 7 "ghost"
      (⟨[("A", ⟨"p", "A", none⟩)], [], []⟩ : ServerState) =
      (⟨[("A", ⟨"p", "A", none⟩)], [], []⟩, []) :=
  (socketLogin_unregistered_noop ⟨[("A", ⟨"p", "A", none⟩)], [], []⟩ 7 "ghost"
    (by decide)).1

/-! ## C3: empty chat body is not rejected -/

/-- C3, counterexample.  Concrete run on `src/server.js`: socket `1` is
authenticated as `"A"`; `chat-message` with the empty body `""` appends a
`Message` to the archive and acknowledges `ok` — the claim says it is
rejected before persistence with a failure result. -/
theorem empty_body_persisted_cex :
    (chatMessage 1 "B" "" 7
      (⟨[("A", ⟨"p", "A", some 1⟩)], [], [(1, "A")]⟩ : ServerState)).1.messages
      = [⟨"A", "B", "", 7⟩] ∧
    ([⟨"A", "B", "", 7⟩] : List Msg) ≠ [] ∧
    (chatMessage 1 "B" "" 7
      (⟨[("A", ⟨"p", "A", some 1⟩)], [], [(1, "A")]⟩ : ServerState)).2.2 = Cb.ok :=
  ⟨by decide, by decide, by decide⟩

/-- C3, amended.  The `chat-message` handler performs no check on the body:
for every authenticated sender, an empty body is persisted to the archive
and acknowledged with success exactly like a non-empty one (the only
precondition enforced is sender authentication).  This holds in all three
variants; none contains an empty-body rejection. -/
theorem chatMessage_empty_body_accepted (st : ServerState) (sid : Nat)
    (f toUser : String) (ts : Nat) (h : objGet sid st.socketToUser = some f) :
    (chatMessage sid toUser "" ts st).2.2 = Cb.ok ∧
    (chatMessage sid toUser "" ts st).1.messages
      = st.messages ++ [⟨f, toUser, "", ts⟩] := by
  constructor <;> simp [chatMessage, h]

/-- C3, witness for `chatMessage_empty_body_accepted` at a concrete
state. -/
theorem chatMessage_empty_body_accepted_witness :
    (chatMessage 2 "C" "" 11
      (⟨[("D", ⟨"p", "D", some 2⟩)], [], [(2, "D")]⟩ : ServerState)).2.2 = Cb.ok :=
  (chatMessage_empty_body_accepted ⟨[("D", ⟨"p", "D", some 2⟩)], [], [(2, "D")]⟩
    2 "D" "C" 11 (by decide)).1

/-! ## C4: storage failure aborts the chat operation -/

/-- C4, confirmed.  In the SQLite variant (`src/unnamed/part_000`,
`chat-message`, lines 262-278) — the only variant in which the archive
write can fail — a failed `INSERT` makes the handler return the
`db error` failure to the caller, leave the state (archive and registry)
unchanged, and emit nothing: no live `chat-message` delivery and no
`chat-acked` confirmation, so the operation is never partially applied. -/
theorem chatMessageSql_storage_failure_aborts (st : Sql.SqlState) (sid : Nat)
    (f toUser text : String) (ts : Nat)
    (h : objGet sid st.socketToUser = some f) :
    Sql.chatMessageSql false sid toUser text ts st
      = (st, [], Cb.err "db error") := by
  simp [Sql.chatMessageSql, h]

/-- C4, witness for `chatMessageSql_storage_failure_aborts` at a concrete
state. -/
theorem chatMessageSql_storage_failure_aborts_witness :
    Sql.chatMessageSql false 1 "bob" "hi" 9
      (⟨[⟨"alice", "p", "Alice"⟩], [], 0, [(1, "alice")], [("alice", 1)]⟩ : Sql.SqlState)
      = (⟨[⟨"alice", "p", "Alice"⟩], [], 0, [(1, "alice")], [("alice", 1)]⟩, [],
        Cb.err "db error") :=
  chatMessageSql_storage_failure_aborts
    ⟨[⟨"alice", "p", "Alice"⟩], [], 0, [(1, "alice")], [("alice", 1)]⟩
    1 "alice" "bob" "hi" 9 (by decide)

/-! ## C5: send to an offline target is durable, acked, and undelivered -/

/-- C5, confirmed.  For every authenticated sender `A` and target `B` with
no current binding (`lookup B` absent): `chat-message` acknowledges `ok` to
the caller, appends exactly one `Message {A, B, body, ts}` to the archive,
emits exactly one `chat-acked` confirmation — to the sender's own
connection — and emits no live `chat-message` delivery on any connection;
the appended message is retrievable via `history A B`. -/
theorem chatMessage_offline_durable (st : ServerState) (sid : Nat)
    (A B body : String) (ts : Nat)
    (hA : objGet sid st.socketToUser = some A) (hB : lookup B st = none) :
    (chatMessage sid B body ts st).2.2 = Cb.ok ∧
    (chatMessage sid B body ts st).1.messages
      = st.messages ++ [⟨A, B, body, ts⟩] ∧
    (chatMessage sid B body ts st).2.1 = [Emit.chatAckedEv sid B body ts] ∧
    (⟨A, B, body, ts⟩ : Msg) ∈ history A B (chatMessage sid B body ts st).1.messages := by
  have hmain : (chatMessage sid B body ts st).2.2 = Cb.ok ∧
      (chatMessage sid B body ts st).1.messages
        = st.messages ++ [⟨A, B, body, ts⟩] ∧
      (chatMessage sid B body ts st).2.1 = [Emit.chatAckedEv sid B body ts] := by
    cases h2 : objGet B st.users with
    | none => refine ⟨?_, ?_, ?_⟩ <;> simp [chatMessage, hA, h2]
    | some t =>
      have hsock : t.socketId = none := by
        unfold lookup at hB
        rw [h2] at hB
        exact hB
      refine ⟨?_, ?_, ?_⟩ <;> simp [chatMessage, hA, h2, hsock]
  refine ⟨hmain.1, hmain.2.1, hmain.2.2, ?_⟩
  rw [hmain.2.1]
  have hfil : (st.messages ++ [(⟨A, B, body, ts⟩ : Msg)]).filter (fun m =>
        (m.fromUser == A && m.toUser == B) || (m.fromUser == B && m.toUser == A))
      = (st.messages.filter (fun m =>
        (m.fromUser == A && m.toUser == B) || (m.fromUser == B && m.toUser == A)))
        ++ [⟨A, B, body, ts⟩] := by
    rw [List.filter_append]
    simp [List.filter]
  unfold history
  rw [hfil]
  exact mem_sliceLast_append 200 (by norm_num) _ _

/-- C5, witness for `chatMessage_offline_durable` at a concrete state
(target `"B"` registered but offline). -/
theorem chatMessage_offline_durable_witness :
    (chatMessage 1 "B" "hi" 5
      (⟨[("A", ⟨"p", "A", some 1⟩), ("B", ⟨"q", "B", none⟩)], [],
        [(1, "A")]⟩ : ServerState)).2.2 = Cb.ok ∧
    (chatMessage 1 "B" "hi" 5
      (⟨[("A", ⟨"p", "A", some 1⟩), ("B", ⟨"q", "B", none⟩)], [],
        [(1, "A")]⟩ : ServerState)).2.1 = [Emit.chatAckedEv 1 "B" "hi" 5] := by
  have h := chatMessage_offline_durable
    ⟨[("A", ⟨"p", "A", some 1⟩), ("B", ⟨"q", "B", none⟩)], [], [(1, "A")]⟩
    1 "A" "B" "hi" 5 (by decide) (by decide)
  exact ⟨h.1, h.2.2.1⟩

/-! ## C6: signals to an unreachable target -/

/-- C6, confirmed.  For every authenticated sender and every target identity
that is unknown or has no bound connection (`lookup` absent): the `call`
invite acknowledges the failure `user offline` through its callback and
emits nothing, while `offer`, `answer`, `ice-candidate` and `end-call` —
whose handlers have no callback channel at all — leave the state unchanged
and emit nothing (silent drop, no delivery on any connection). -/
theorem unreachable_target_signals (st : ServerState) (sid : Nat)
    (f toUser sdp candidate : String)
    (hFrom : objGet sid st.socketToUser = some f) (hOff : lookup toUser st = none) :
    callH sid toUser st = (st, [], Cb.err "user offline") ∧
    offerH sid toUser sdp st = (st, []) ∧
    answerH sid toUser sdp st = (st, []) ∧
    iceH sid toUser candidate st = (st, []) ∧
    endCallH sid toUser st = (st, []) := by
  cases h2 : objGet toUser st.users with
  | none =>
    refine ⟨?_, ?_, ?_, ?_, ?_⟩ <;>
      simp [callH, offerH, answerH, iceH, endCallH, hFrom, h2]
  | some t =>
    have hsock : t.socketId = none := by
      unfold lookup at hOff
      rw [h2] at hOff
      exact hOff
    refine ⟨?_, ?_, ?_, ?_, ?_⟩ <;>
      simp [callH, offerH, answerH, iceH, endCallH, hFrom, h2, hsock]

/-- C6, witness for `unreachable_target_signals` at a concrete state
(target `"gone"` unknown). -/
theorem unreachable_target_signals_witness :
    callH 1 "gone"
      (⟨[("A", ⟨"p", "A", some 1⟩)], [], [(1, "A")]⟩ : ServerState)
      = (⟨[("A", ⟨"p", "A", some 1⟩)], [], [(1, "A")]⟩, [],
        Cb.err "user offline") ∧
    offerH 1 "gone" "sdp0"
      (⟨[("A", ⟨"p", "A", some 1⟩)], [], [(1, "A")]⟩ : ServerState)
      = (⟨[("A", ⟨"p", "A", some 1⟩)], [], [(1, "A")]⟩, []) := by
  have h := unreachable_target_signals
    ⟨[("A", ⟨"p", "A", some 1⟩)], [], [(1, "A")]⟩ 1 "A" "gone" "sdp0" "cand0"
    (by decide) (by decide)
  exact ⟨h.1, h.2.1⟩

/-! ## C7: forwarded call invite payload -/

/-- C7, counterexample.  In the SQLite variant (`src/unnamed/part_000`,
`call`, lines 216-223) the forwarded `incoming-call` event carries
`displayName: null` even though the sender `"alice"` is registered with
display name `"Alice Liddell"` — so the forwarded event does not carry the
sender's display name as the claim states. -/
theorem sql_call_displayName_null_cex :
    Sql.callSql 1 "bob"
      (⟨[⟨"alice", "p", "Alice Liddell"⟩], [], 0,
        [(1, "alice"), (2, "bob")], [("alice", 1), ("bob", 2)]⟩ : Sql.SqlState)
      = (⟨[⟨"alice", "p", "Alice Liddell"⟩], [], 0,
        [(1, "alice"), (2, "bob")], [("alice", 1), ("bob", 2)]⟩,
        [Emit.incomingCall 2 "alice" none], Cb.ok) ∧
    (none : Option String) ≠ some "Alice Liddell" :=
  ⟨by decide, by decide⟩

/-- C7, amended.  In `src/server.js` (lines 125-133, and the identical
handler of `src/unnamed/part_001`), a call invite from an authenticated,
registered sender to a target with a bound connection emits exactly one
forwarded `incoming-call` event to that target's connection, carrying the
sender's identity and the sender's display name, and acknowledges `ok`; in
the SQLite variant the forwarded event carries the sender's identity but a
null display name. -/
theorem call_forwards_identity_displayName (st : ServerState) (sid tsid : Nat)
    (f toUser : String) (t fu : UserRec)
    (hFrom : objGet sid st.socketToUser = some f)
    (hT : objGet toUser st.users = some t) (hsock : t.socketId = some tsid)
    (hF : objGet f st.users = some fu) :
    callH sid toUser st
      = (st, [Emit.incomingCall tsid f (some fu.displayName)], Cb.ok) := by
  simp [callH, hFrom, hT, hsock, hF]

/-- C7, witness for `call_forwards_identity_displayName` at a concrete
state. -/
theorem call_forwards_identity_displayName_witness :
    callH 1 "bob"
      (⟨[("alice", ⟨"p", "Alice Liddell", some 1⟩),
         ("bob", ⟨"q", "Bob", some 2⟩)], [], [(1, "alice"), (2, "bob")]⟩ : ServerState)
      = (⟨[("alice", ⟨"p", "Alice Liddell", some 1⟩),
         ("bob", ⟨"q", "Bob", some 2⟩)], [], [(1, "alice"), (2, "bob")]⟩,
        [Emit.incomingCall 2 "alice" (some "Alice Liddell")], Cb.ok) :=
  call_forwards_identity_displayName
    ⟨[("alice", ⟨"p", "Alice Liddell", some 1⟩),
      ("bob", ⟨"q", "Bob", some 2⟩)], [], [(1, "alice"), (2, "bob")]⟩
    1 2 "alice" "bob" ⟨"q", "Bob", some 2⟩ ⟨"p", "Alice Liddell", some 1⟩
    (by decide) (by decide) (by decide) (by decide)

/-! ## C8: roster computation -/

/-- C8, counterexample.  The in-memory `listUsers` (`src/server.js` lines
24-29, cited by the claim) does not satisfy the claimed contract: a user
`"alice"` whose display name `"Bobby"` contains the filter `"bob"`
case-insensitively is not returned (the filter is matched against the
username only), and with two users registered in the order `"b"`, `"a"`
the unfiltered roster comes back in insertion order `["b", "a"]`, not
ordered by username ascending. -/
theorem listUsers_ignores_displayName_cex :
    listUsers "bob" [("alice", ⟨"p", "Bobby", none⟩)] = [] ∧
    jsIncludes (lowerStr "Bobby") (lowerStr "bob") = true ∧
    listUsers "" [("b", ⟨"p", "b", none⟩), ("a", ⟨"q", "a", none⟩)]
      = [⟨"b", "b", false⟩, ⟨"a", "a", false⟩] ∧
    ¬ (("b" : String) ≤ "a") := by
  refine ⟨by decide, by decide, by decide, ?_⟩
  rw [not_le, String.lt_iff_toList_lt]
  decide

/-- C8, amended.  The claimed contract is the one of `listUsersSql` in the
SQLite variant (`src/unnamed/part_000` lines 64-81): every returned entry
comes from a stored user whose username or display name contains the filter
as a case-insensitive substring; the result is ordered by username
ascending and capped at 200 entries; and whenever at most 200 users match,
every matching user is returned.  The in-memory variants' `listUsers`
instead matches the filter against the username only, returns entries in
insertion order, and applies no cap. -/
theorem listUsersSql_roster_spec (q : String) (st : Sql.SqlState) :
    (∀ e ∈ Sql.listUsersSql q st, ∃ r ∈ st.dbUsers,
      Sql.rowMatches q r = true ∧ e.username = r.username) ∧
    (Sql.listUsersSql q st).length ≤ 200 ∧
    List.Pairwise (fun a b : RosterEntry => a.username ≤ b.username)
      (Sql.listUsersSql q st) ∧
    ((st.dbUsers.filter (Sql.rowMatches q)).length ≤ 200 →
      ∀ r ∈ st.dbUsers, Sql.rowMatches q r = true →
      ∃ e ∈ Sql.listUsersSql q st, e.username = r.username) := by
  refine ⟨?_, ?_, ?_, ?_⟩
  · intro e he
    unfold Sql.listUsersSql at he
    rcases List.mem_map.mp he with ⟨r, hr, rfl⟩
    have hr2 : r ∈ Sql.sortByUsername (st.dbUsers.filter (Sql.rowMatches q)) :=
      List.mem_of_mem_take hr
    have hr3 : r ∈ st.dbUsers.filter (Sql.rowMatches q) :=
      (mem_sortByUsername r _).mp hr2
    rcases List.mem_filter.mp hr3 with ⟨hmem, hmatch⟩
    exact ⟨r, hmem, hmatch, rfl⟩
  · unfold Sql.listUsersSql
    rw [List.length_map, List.length_take]
    exact min_le_left _ _
  · have hs := sorted_sortByUsername (st.dbUsers.filter (Sql.rowMatches q))
    have hs2 : List.Pairwise Sql.RowLe
        ((Sql.sortByUsername (st.dbUsers.filter (Sql.rowMatches q))).take 200) :=
      List.Pairwise.sublist (List.take_sublist 200 _) hs
    unfold Sql.listUsersSql
    exact List.Pairwise.map _ (fun a b h => h) hs2
  · intro hle r hmem hmatch
    have hfil : r ∈ st.dbUsers.filter (Sql.rowMatches q) :=
      List.mem_filter.mpr ⟨hmem, hmatch⟩
    have hsm : r ∈ Sql.sortByUsername (st.dbUsers.filter (Sql.rowMatches q)) :=
      (mem_sortByUsername r _).mpr hfil
    have hlen : (Sql.sortByUsername (st.dbUsers.filter (Sql.rowMatches q))).length ≤ 200 := by
      rw [length_sortByUsername]
      exact hle
    have htake : (Sql.sortByUsername (st.dbUsers.filter (Sql.rowMatches q))).take 200
        = Sql.sortByUsername (st.dbUsers.filter (Sql.rowMatches q)) :=
      List.take_of_length_le hlen
    unfold Sql.listUsersSql
    rw [htake]
    exact ⟨_, List.mem_map_of_mem _ hsm, rfl⟩

/-- C8, witness for `listUsersSql_roster_spec`: on a concrete two-user
table, the completeness conjunct returns the user `"alice"` matched by the
filter `"LID"` through her display name `"Alice Liddell"`. -/
theorem listUsersSql_roster_spec_witness :
    ∃ e ∈ Sql.listUsersSql "LID"
      (⟨[⟨"bob", "p", "Bobby"⟩, ⟨"alice", "q", "Alice Liddell"⟩], [], 0, [], []⟩ : Sql.SqlState),
      e.username = "alice" :=
  (listUsersSql_roster_spec "LID"
    ⟨[⟨"bob", "p", "Bobby"⟩, ⟨"alice", "q", "Alice Liddell"⟩], [], 0, [], []⟩).2.2.2
    (by decide) ⟨"alice", "q", "Alice Liddell"⟩ (by decide) (by decide)

/-! ## C9: unbind clears the binding; broadcast discipline -/

/-- C9, confirmed, in three parts for the `src/server.js` registry.
First: a disconnect of a connection `sid` bound to identity `u` (forward
entry in `socketToUser`, `u` registered) makes a subsequent `lookup u`
return absent and fires exactly one roster broadcast (the `users-updated`
`io.emit` goes to every live connection).  Second: a socket-login of a
registered username — a state-changing bind — fires exactly one roster
broadcast.  Third: a disconnect of an unbound connection is a complete
no-op: state unchanged, no broadcast. -/
theorem unbind_broadcast_discipline :
    (∀ (st : ServerState) (sid : Nat) (u : String) (urec : UserRec),
      objGet sid st.socketToUser = some u → objGet u st.users = some urec →
      lookup u (disconnectH sid st).1 = none ∧
      (disconnectH sid st).2
        = [Emit.usersUpdated (listUsers "" (disconnectH sid st).1.users)]) ∧
    (∀ (st : ServerState) (sid : Nat) (username : String) (u : UserRec),
      objGet username st.users = some u →
      (socketLogin sid username st).2
        = [Emit.usersUpdated (listUsers "" (socketLogin sid username st).1.users)]) ∧
    (∀ (st : ServerState) (sid : Nat),
      objGet sid st.socketToUser = none → disconnectH sid st = (st, [])) := by
  refine ⟨?_, ?_, ?_⟩
  · intro st sid u urec h1 h2
    constructor
    · simp [disconnectH, lookup, h1, h2, objGet_objSet_self]
    · simp [disconnectH, h1, h2]
  · intro st sid username u h
    simp [socketLogin, h]
  · intro st sid h
    simp [disconnectH, h]

/-- C9, witness for `unbind_broadcast_discipline` at concrete states: the
bound-disconnect conjunct and the no-op-disconnect conjunct evaluated. -/
theorem unbind_broadcast_discipline_witness :
    lookup "A" (disconnectH 1
      (⟨[("A", ⟨"p", "A", some 1⟩)], [], [(1, "A")]⟩ : ServerState)).1 = none ∧
    disconnectH 9 (⟨[("A", ⟨"p", "A", some 1⟩)], [], [(1, "A")]⟩ : ServerState)
      = (⟨[("A", ⟨"p", "A", some 1⟩)], [], [(1, "A")]⟩, []) := by
  have h := unbind_broadcast_discipline
  exact ⟨(h.1 ⟨[("A", ⟨"p", "A", some 1⟩)], [], [(1, "A")]⟩ 1 "A"
      ⟨"p", "A", some 1⟩ (by decide) (by decide)).1,
    h.2.2 ⟨[("A", ⟨"p", "A", some 1⟩)], [], [(1, "A")]⟩ 9 (by decide)⟩

/-! ## C10: monotonicity of the assigned sequence/timestamp -/

/-- C10, counterexample.  In `src/server.js` the only value assigned at
message creation is `ts = Date.now()`, an external clock input: two
consecutive sends within the same millisecond (clock value `5` twice)
produce two archived messages whose timestamps are equal, so the later
message's assigned value is not strictly greater than the earlier one's. -/
theorem timestamp_not_strictly_increasing_cex :
    ((chatMessage 1 "B" "yo" 5 ((chatMessage 1 "B" "hi" 5
      (⟨[("A", ⟨"p", "A", some 1⟩)], [], [(1, "A")]⟩ : ServerState)).1)).1).messages.map
        Msg.ts = [5, 5] ∧
    ¬ ((5 : Nat) < 5) :=
  ⟨by decide, by decide⟩

/-- C10, amended.  The timestamp is the raw clock value at append time and
is not strictly increasing across appends.  What is strictly increasing is
the AUTOINCREMENT id of the SQLite variant's archive
(`src/unnamed/part_000`): under the AUTOINCREMENT invariant (every stored
id is below the counter), every successful `chat-message` append adds
exactly one row whose id is strictly greater than that of every previously
stored message, and re-establishes the invariant — so in every reachable
state the later of two appended messages has the strictly greater id. -/
theorem sql_message_id_strictly_increasing (st : Sql.SqlState) (sid : Nat)
    (f toUser text : String) (ts : Nat)
    (h : objGet sid st.socketToUser = some f)
    (hinv : ∀ m ∈ st.dbMessages, m.id < st.seqMsg) :
    (∃ mNew : Sql.MsgRow,
      (Sql.chatMessageSql true sid toUser text ts st).1.dbMessages
        = st.dbMessages ++ [mNew] ∧
      ∀ m ∈ st.dbMessages, m.id < mNew.id) ∧
    (∀ m ∈ (Sql.chatMessageSql true sid toUser text ts st).1.dbMessages,
      m.id < (Sql.chatMessageSql true sid toUser text ts st).1.seqMsg) := by
  have hmsgs : (Sql.chatMessageSql true sid toUser text ts st).1.dbMessages
      = st.dbMessages ++ [⟨st.seqMsg, f, toUser, text, ts⟩] := by
    simp [Sql.chatMessageSql, h]
  have hseq : (Sql.chatMessageSql true sid toUser text ts st).1.seqMsg
      = st.seqMsg + 1 := by
    simp [Sql.chatMessageSql, h]
  constructor
  · exact ⟨⟨st.seqMsg, f, toUser, text, ts⟩, hmsgs, fun m hm => hinv m hm⟩
  · intro m hm
    rw [hmsgs] at hm
    rw [hseq]
    rcases List.mem_append.mp hm with hm1 | hm2
    · exact Nat.lt_succ_of_lt (hinv m hm1)
    · rw [List.mem_singleton.mp hm2]
      exact Nat.lt_succ_self _

/-- C10, witness for `sql_message_id_strictly_increasing` at a concrete
state whose archive already holds a message with id `0` and counter `1`. -/
theorem sql_message_id_strictly_increasing_witness :
    ∃ mNew : Sql.MsgRow,
      (Sql.chatMessageSql true 1 "bob" "hi" 5
        (⟨[], [⟨0, "alice", "bob", "old", 4⟩], 1,
          [(1, "alice")], [("alice", 1)]⟩ : Sql.SqlState)).1.dbMessages
        = [⟨0, "alice", "bob", "old", 4⟩] ++ [mNew] ∧
      ∀ m ∈ [(⟨0, "alice", "bob", "old", 4⟩ : Sql.MsgRow)], m.id < mNew.id :=
  (sql_message_id_strictly_increasing
    ⟨[], [⟨0, "alice", "bob", "old", 4⟩], 1, [(1, "alice")], [("alice", 1)]⟩
    1 "alice" "bob" "hi" 5 (by decide) (by decide)).1

end SkyCall
